import Mathlib

/-
Verification of the priority-donation lock in
src/lab2_priority_scheduling/pintos/src/threads/lock.c (repository
aith/pintos-projects) against its natural-language specification.

The embedding is a shallow state-passing model of lock.c.  Threads and
locks are identified by natural numbers; the global state carries the
per-thread scheduling fields and the per-lock fields.  Each C function
of lock.c becomes a Lean function on this state, translated line by
line from the source.  "Current thread" (the C thread_current() /
thread_get_priority() globals) is passed as an explicit parameter; the
priority is re-read from the intermediate state at each call site, as
the C code re-reads it.
-/

namespace Pintos

abbrev ThreadId := Nat
abbrev LockId := Nat

/-- Modelled from the spec: the scheduling fields of `struct thread`
(threads/thread.h and threads/thread.c are not under src/; spec section 3
describes them): `base_priority` (assigned, never changed by donation),
`priority` (the effective priority used by the scheduler, the field that
lock.c reads and writes), `lock_waiting_on` (the lock this thread is
blocked trying to acquire, if any), and `priority_donor_locks` (the
donation ledger: the list of locks recorded as donating to this thread,
kept in the order lock.c's list operations produce). -/
structure Thread where
  base_priority : Int
  priority : Int
  lock_waiting_on : Option LockId
  priority_donor_locks : List LockId
deriving DecidableEq

/-- `struct lock` from threads/lock.h: the holder (None when free), the
donated `priority` field, and the count of the gating binary semaphore.
The semaphore counter itself is modelled from the spec: a binary
semaphore with initial value 1 (threads/semaphore.c is not under src/);
`down` proceeds and decrements only when the count is positive,
otherwise the caller suspends; `up` increments. -/
structure Lock where
  holder : Option ThreadId
  priority : Int
  sem : Nat
deriving DecidableEq

/-- The global state: the per-thread and per-lock stores. -/
structure State where
  threads : ThreadId → Thread
  locks : LockId → Lock

/-- Point update of one thread's record. -/
def State.setThread (σ : State) (t : ThreadId) (th : Thread) : State :=
  { σ with threads := fun u => if u = t then th else σ.threads u }

/-- Point update of one lock's record. -/
def State.setLock (σ : State) (l : LockId) (lk : Lock) : State :=
  { σ with locks := fun k => if k = l then lk else σ.locks k }

/-- `thread->priority = p` for a single thread. -/
def State.setPriority (σ : State) (t : ThreadId) (p : Int) : State :=
  σ.setThread t { σ.threads t with priority := p }

/-- A freshly created thread: effective priority starts at the base
priority, not blocked, empty donation ledger. -/
def mkThread (p : Int) : Thread :=
  { base_priority := p, priority := p, lock_waiting_on := none,
    priority_donor_locks := [] }

/-- lock_init (lock.c lines 58-64): holder NULL, priority -1,
semaphore initialized to 1. -/
def lock_init : Lock :=
  { holder := none, priority := -1, sem := 1 }

/-- lock_priority_gt (lock.c lines 67-72): the list comparator; true
when lock `a`'s priority field is strictly greater than lock `b`'s. -/
def lock_priority_gt (σ : State) (a b : LockId) : Bool :=
  (σ.locks a).priority > (σ.locks b).priority

/-- Modelled from the spec: Pintos `list_insert_ordered`
(lib/kernel/list.c is not under src/), the routine lock.c calls with
comparator `lock_priority_gt`: the new element is inserted before the
first element the comparator ranks it strictly above, i.e. in
descending-priority position ("insert in descending-priority position",
spec section 4.2). -/
def list_insert_ordered (σ : State) (x : LockId) : List LockId → List LockId
  | [] => [x]
  | y :: ys =>
      if lock_priority_gt σ x y then x :: y :: ys
      else y :: list_insert_ordered σ x ys

/-- find_lock (lock.c lines 159-170): scans a list of locks for `l` by
identity, true when present. -/
def find_lock (l : LockId) : List LockId → Bool
  | [] => false
  | x :: xs => if x = l then true else find_lock l xs

/-- lock_remove_from_list (lock.c lines 146-156): removes the first
occurrence of `l` by identity; the Bool records whether it was found. -/
def lock_remove_from_list (l : LockId) : List LockId → Bool × List LockId
  | [] => (false, [])
  | x :: xs =>
      if x = l then (true, xs)
      else
        let r := lock_remove_from_list l xs
        (r.1, x :: r.2)

/-- Outcome of the while-loop in trickle_priority_donation when run with
a finite iteration budget: `ok` means the C loop exited (reached a lock
pointer of NULL); `nullHolder` means the C code would dereference a NULL
`lock_current->holder`; `outOfFuel` means the loop had not exited within
the given number of iterations. -/
inductive TrickleStatus where
  | ok
  | nullHolder
  | outOfFuel
deriving DecidableEq

/-- trickle_priority_donation (lock.c lines 77-86), with the C while
loop rendered as fuel-bounded recursion (the C loop itself has no
bound):
`while (lock_current != NULL) { thread_current = lock_current->holder;
thread_current->priority = new_priority;
lock_current = thread_current->lock_waiting_on; }`
starting from `cur = initial_thread->lock_waiting_on`. -/
def trickle_priority_donation (σ : State) (cur : Option LockId) (p : Int) :
    Nat → TrickleStatus × State
  | 0 =>
      match cur with
      | none => (TrickleStatus.ok, σ)
      | some _ => (TrickleStatus.outOfFuel, σ)
  | fuel + 1 =>
      match cur with
      | none => (TrickleStatus.ok, σ)
      | some lc =>
          match (σ.locks lc).holder with
          | none => (TrickleStatus.nullHolder, σ)
          | some tc =>
              let σ' := σ.setPriority tc p
              trickle_priority_donation σ' ((σ'.threads tc).lock_waiting_on) p fuel

/-- lock_held_by_current_thread (lock.c lines 219-222):
`lock->holder == thread_current()` with the current thread passed
explicitly. -/
def lock_held_by_current_thread (σ : State) (t : ThreadId) (l : LockId) : Bool :=
  decide ((σ.locks l).holder = some t)

/-- Outcome of lock_acquire: `ok` means the call returned with the lock
held (semaphore was available); `blocked` means the caller suspended in
semaphore_down after the donation bookkeeping; `assertFail` means an
ASSERT tripped (fatal, the operation halts); `diverge` means the
trickle walk never exited its while loop within the fuel. -/
inductive AcquireStatus where
  | ok
  | blocked
  | assertFail
  | diverge
deriving DecidableEq

/-- lock_acquire (lock.c lines 109-143) run by thread `t` on lock `l`.
Follows the source statement by statement:
ASSERT(!lock_held_by_current_thread); if the lock has a holder, either
(a) the lock is already in the holder's priority_donor_locks
(`find_lock`), in which case `lock->priority = holder->priority`
(line 126), or (b) `trickle_priority_donation(holder,
thread_get_priority())`, `thread_current()->lock_waiting_on = lock`,
`lock->priority = thread_get_priority()`, and ordered insertion into
the holder's ledger (lines 129-135); in both branches then
`holder->priority = thread_get_priority()` (line 137).  Finally
semaphore_down: if the count is positive the call completes and sets
`lock->holder = thread_current()` (lines 140-141), otherwise the caller
suspends with the donation bookkeeping already applied. -/
def lock_acquire (fuel : Nat) (σ : State) (t : ThreadId) (l : LockId) :
    AcquireStatus × State :=
  if lock_held_by_current_thread σ t l then (AcquireStatus.assertFail, σ)
  else
    let donated : Option State :=
      match (σ.locks l).holder with
      | none => some σ
      | some h =>
          let afterBranch : Option State :=
            if find_lock l (σ.threads h).priority_donor_locks then
              some (σ.setLock l { σ.locks l with priority := (σ.threads h).priority })
            else
              match trickle_priority_donation σ ((σ.threads h).lock_waiting_on)
                      ((σ.threads t).priority) fuel with
              | (TrickleStatus.ok, σa) =>
                  let σb := σa.setThread t
                    { σa.threads t with lock_waiting_on := some l }
                  let σc := σb.setLock l
                    { σb.locks l with priority := (σb.threads t).priority }
                  some (σc.setThread h
                    { σc.threads h with
                        priority_donor_locks :=
                          list_insert_ordered σc l
                            ((σc.threads h).priority_donor_locks) })
              | (_, _) => none
          match afterBranch with
          | none => none
          | some σ4 =>
              some (σ4.setThread h
                { σ4.threads h with priority := (σ4.threads t).priority })
    match donated with
    | none => (AcquireStatus.diverge, σ)
    | some σ5 =>
        if 0 < (σ5.locks l).sem then
          let σ6 := σ5.setLock l { σ5.locks l with sem := (σ5.locks l).sem - 1 }
          (AcquireStatus.ok, σ6.setLock l { σ6.locks l with holder := some t })
        else (AcquireStatus.blocked, σ5)

/-- The tail of lock_acquire executed when a suspended caller `t` is
woken by a release: semaphore_down completes (decrementing the count,
semaphore modelled from the spec) and then line 141 runs:
`lock->holder = thread_current()`.  Nothing else runs — in particular
lock.c never writes `lock_waiting_on` here. -/
def lock_acquire_resume (σ : State) (t : ThreadId) (l : LockId) : State :=
  let σ1 := σ.setLock l { σ.locks l with sem := (σ.locks l).sem - 1 }
  σ1.setLock l { σ1.locks l with holder := some t }

/-- thread_revoke_donated_priority (lock.c lines 172-174):
`thread_current()->priority = thread_current()->base_priority`. -/
def thread_revoke_donated_priority (σ : State) (t : ThreadId) : State :=
  σ.setPriority t (σ.threads t).base_priority

/-- thread_update_donated_priority (lock.c lines 177-186): if the
current thread's priority_donor_locks is nonempty, set its priority to
the front element's lock priority. -/
def thread_update_donated_priority (σ : State) (t : ThreadId) : State :=
  match (σ.threads t).priority_donor_locks with
  | [] => σ
  | lfront :: _ => σ.setPriority t (σ.locks lfront).priority

/-- Outcome of lock_release: `ok`, or `assertFail` when the
lock_held_by_current_thread ASSERT trips. -/
inductive ReleaseStatus where
  | ok
  | assertFail
deriving DecidableEq

/-- lock_release (lock.c lines 196-213) run by thread `t` on lock `l`:
ASSERT(lock_held_by_current_thread); `lock->holder = NULL`;
semaphore_up; then, only if the releaser's priority_donor_locks is
nonempty: remove `l` from it, thread_revoke_donated_priority,
thread_update_donated_priority.  (thread_preempt touches none of the
modelled state.) -/
def lock_release (σ : State) (t : ThreadId) (l : LockId) : ReleaseStatus × State :=
  if lock_held_by_current_thread σ t l then
    let σ1 := σ.setLock l { σ.locks l with holder := none }
    let σ2 := σ1.setLock l { σ1.locks l with sem := (σ1.locks l).sem + 1 }
    if (σ2.threads t).priority_donor_locks = [] then (ReleaseStatus.ok, σ2)
    else
      let σ3 := σ2.setThread t
        { σ2.threads t with
            priority_donor_locks :=
              (lock_remove_from_list l ((σ2.threads t).priority_donor_locks)).2 }
      let σ4 := thread_revoke_donated_priority σ3 t
      (ReleaseStatus.ok, thread_update_donated_priority σ4 t)
  else (ReleaseStatus.assertFail, σ)

/-- The specification's formula for a thread's effective priority
(spec sections 3 and 8): `max(base_priority, max over the locks in the
donation ledger of their donated priority)`. -/
def spec_effective (σ : State) (t : ThreadId) : Int :=
  (((σ.threads t).priority_donor_locks).map fun l => (σ.locks l).priority).foldl
    max ((σ.threads t).base_priority)

/-- The priorities stored at the locks of a thread's donation ledger,
in ledger order. -/
def ledger_priorities (σ : State) (t : ThreadId) : List Int :=
  ((σ.threads t).priority_donor_locks).map fun l => (σ.locks l).priority

/-- True when a list of priorities is in descending (non-increasing)
order. -/
def sorted_desc : List Int → Bool
  | [] => true
  | [_] => true
  | a :: b :: rest => decide (b ≤ a) && sorted_desc (b :: rest)

/-! ### Concrete traces

Each claim's scenario is realised as a trace of the embedded operations
starting from a clean state (fresh threads, freshly initialized locks),
so every state appearing in a theorem is reachable through lock.c's own
entry points. -/

/-- Trace for C1: thread 0 = H (base 50), thread 1 = A (base 10);
lock 0 = L, lock 1 = M, both freshly initialized. -/
def c1_s0 : State :=
  { threads := fun i => if i = 0 then mkThread 50 else mkThread 10,
    locks := fun _ => lock_init }

/-- H acquires the free lock L. -/
def c1_r1 : AcquireStatus × State := lock_acquire 8 c1_s0 0 0

/-- A calls lock_acquire on L, now held by H, and blocks. -/
def c1_r2 : AcquireStatus × State := lock_acquire 8 c1_r1.2 1 0

/-- H acquires the free lock M; this call completes, so the resulting
state is an observable instant right after a finished lock_acquire. -/
def c1_r3 : AcquireStatus × State := lock_acquire 8 c1_r2.2 0 1

/-- Trace for C2: thread 0 = A (10), thread 1 = B (1), thread 2 = C (1);
lock 0 = L1, lock 1 = L2. -/
def c2_s0 : State :=
  { threads := fun i => if i = 0 then mkThread 10 else mkThread 1,
    locks := fun _ => lock_init }

/-- C acquires the free lock L2. -/
def c2_r1 : AcquireStatus × State := lock_acquire 8 c2_s0 2 1

/-- B acquires the free lock L1. -/
def c2_r2 : AcquireStatus × State := lock_acquire 8 c2_r1.2 1 0

/-- B calls lock_acquire on L2, held by C, and blocks. -/
def c2_r3 : AcquireStatus × State := lock_acquire 8 c2_r2.2 1 1

/-- A calls lock_acquire on L1, held by the blocked B, and blocks. -/
def c2_r4 : AcquireStatus × State := lock_acquire 8 c2_r3.2 0 0

/-- Trace for C3: thread 0 = H (base 50), thread 1 = W1 (5),
thread 2 = W2 (6); lock 0 = L, lock 1 = K. -/
def c3_s0 : State :=
  { threads := fun i =>
      if i = 0 then mkThread 50 else if i = 1 then mkThread 5 else mkThread 6,
    locks := fun _ => lock_init }

/-- H acquires the free lock L. -/
def c3_r1 : AcquireStatus × State := lock_acquire 8 c3_s0 0 0

/-- H acquires the free lock K. -/
def c3_r2 : AcquireStatus × State := lock_acquire 8 c3_r1.2 0 1

/-- W1 (priority 5) blocks on L. -/
def c3_r3 : AcquireStatus × State := lock_acquire 8 c3_r2.2 1 0

/-- W2 (priority 6) blocks on K. -/
def c3_r4 : AcquireStatus × State := lock_acquire 8 c3_r3.2 2 1

/-- H releases L; K (donated priority 6) remains in H's ledger. -/
def c3_r5 : ReleaseStatus × State := lock_release c3_r4.2 0 0

/-- Trace for C4: thread 0 = H (base 1), thread 1 = A (10),
thread 2 = C (3), thread 3 = D (2); lock 0 = L. -/
def c4_s0 : State :=
  { threads := fun i =>
      if i = 0 then mkThread 1 else if i = 1 then mkThread 10
      else if i = 2 then mkThread 3 else mkThread 2,
    locks := fun _ => lock_init }

/-- H acquires the free lock L. -/
def c4_r1 : AcquireStatus × State := lock_acquire 8 c4_s0 0 0

/-- A (priority 10) blocks on L: first contended acquire, L's donated
priority becomes 10. -/
def c4_r2 : AcquireStatus × State := lock_acquire 8 c4_r1.2 1 0

/-- C (priority 3) blocks on L: L is already in H's ledger, so the
find_lock branch of lock_acquire runs. -/
def c4_r3 : AcquireStatus × State := lock_acquire 8 c4_r2.2 2 0

/-- D (priority 2) blocks on L: the find_lock branch runs again, now
copying H's clobbered priority into L. -/
def c4_r4 : AcquireStatus × State := lock_acquire 8 c4_r3.2 3 0

/-- Trace for C5/C6: thread 0 = H (base 1), thread 1 = W (5),
thread 2 = X (7); lock 0 = L. -/
def c5_s0 : State :=
  { threads := fun i =>
      if i = 0 then mkThread 1 else if i = 1 then mkThread 5 else mkThread 7,
    locks := fun _ => lock_init }

/-- H acquires the free lock L. -/
def c5_r1 : AcquireStatus × State := lock_acquire 8 c5_s0 0 0

/-- W (priority 5) blocks on L; lock.c records W.lock_waiting_on = L. -/
def c5_r2 : AcquireStatus × State := lock_acquire 8 c5_r1.2 1 0

/-- H releases L. -/
def c5_r3 : ReleaseStatus × State := lock_release c5_r2.2 0 0

/-- W wakes up inside lock_acquire and runs the post-suspension code
(lock.c lines 140-141). -/
def c5_s4 : State := lock_acquire_resume c5_r3.2 1 0

/-- Trace for C7: thread 0 = H (base 1), thread 1 = A (5),
thread 2 = B (6), thread 3 = C (2), thread 4 = D (3); lock 0 = L,
lock 1 = K. -/
def c7_s0 : State :=
  { threads := fun i =>
      if i = 0 then mkThread 1 else if i = 1 then mkThread 5
      else if i = 2 then mkThread 6 else if i = 3 then mkThread 2
      else mkThread 3,
    locks := fun _ => lock_init }

/-- H acquires the free lock L. -/
def c7_r1 : AcquireStatus × State := lock_acquire 8 c7_s0 0 0

/-- H acquires the free lock K. -/
def c7_r2 : AcquireStatus × State := lock_acquire 8 c7_r1.2 0 1

/-- A (priority 5) blocks on L; H's ledger becomes [L(5)]. -/
def c7_r3 : AcquireStatus × State := lock_acquire 8 c7_r2.2 1 0

/-- B (priority 6) blocks on K; ordered insert gives ledger
[K(6), L(5)]. -/
def c7_r4 : AcquireStatus × State := lock_acquire 8 c7_r3.2 2 1

/-- C (priority 2) blocks on L via the find_lock branch: L's stored
priority is overwritten in place and H's priority drops to 2. -/
def c7_r5 : AcquireStatus × State := lock_acquire 8 c7_r4.2 3 0

/-- D (priority 3) blocks on K via the find_lock branch: K's stored
priority is overwritten in place with H's clobbered priority 2. -/
def c7_r6 : AcquireStatus × State := lock_acquire 8 c7_r5.2 4 1

/-! ### Helper lemmas about the state setters -/

/-- Updating a lock leaves every thread record unchanged. -/
theorem setLock_threads (σ : State) (l : LockId) (lk : Lock) :
    (σ.setLock l lk).threads = σ.threads := rfl

/-- Updating a thread leaves every lock record unchanged. -/
theorem setThread_locks (σ : State) (t : ThreadId) (th : Thread) :
    (σ.setThread t th).locks = σ.locks := rfl

/-- Reading back the lock just written. -/
theorem setLock_self (σ : State) (l : LockId) (lk : Lock) :
    (σ.setLock l lk).locks l = lk := by
  simp [State.setLock]

/-- Reading a different lock after a lock update. -/
theorem setLock_other (σ : State) (l k : LockId) (lk : Lock) (h : k ≠ l) :
    (σ.setLock l lk).locks k = σ.locks k := by
  simp [State.setLock, h]

/-- Writing a thread's priority leaves its lock_waiting_on field
unchanged. -/
theorem setPriority_waiting (σ : State) (t u : ThreadId) (p : Int) :
    ((σ.setPriority t p).threads u).lock_waiting_on =
      (σ.threads u).lock_waiting_on := by
  by_cases h : u = t <;> simp [State.setPriority, State.setThread, h]

/-- Writing a thread's priority leaves every lock record unchanged. -/
theorem setPriority_locks (σ : State) (t : ThreadId) (p : Int) :
    (σ.setPriority t p).locks = σ.locks := rfl

/-- The while loop of trickle_priority_donation never exits once the
chain is cyclic in the smallest way lock.c makes reachable: the current
lock's holder is a thread whose lock_waiting_on points back at that
same lock.  Every iteration budget is exhausted. -/
theorem trickle_self_loop (W : ThreadId) (L : LockId) (p : Int) :
    ∀ (fuel : Nat) (σ : State), (σ.locks L).holder = some W →
      (σ.threads W).lock_waiting_on = some L →
      (trickle_priority_donation σ (some L) p fuel).1 =
        TrickleStatus.outOfFuel := by
  intro fuel
  induction fuel with
  | zero =>
      intro σ h1 h2
      simp [trickle_priority_donation]
  | succ n ih =>
      intro σ h1 h2
      have hw : ((σ.setPriority W p).threads W).lock_waiting_on = some L := by
        rw [setPriority_waiting]; exact h2
      have hh : ((σ.setPriority W p).locks L).holder = some W := by
        rw [setPriority_locks]; exact h1
      simp only [trickle_priority_donation, h1, hw]
      exact ih (σ.setPriority W p) hh hw

/-- A contended lock_acquire on such a self-cyclic chain reports
diverge for every fuel: the donation walk never returns, so the C call
never reaches semaphore_down. -/
theorem lock_acquire_cycle_diverges (fuel : Nat) (σ : State)
    (t W : ThreadId) (L : LockId)
    (hold : (σ.locks L).holder = some W)
    (hnt : (σ.locks L).holder ≠ some t)
    (hw : (σ.threads W).lock_waiting_on = some L)
    (hfind : find_lock L ((σ.threads W).priority_donor_locks) = false) :
    lock_acquire fuel σ t L = (AcquireStatus.diverge, σ) := by
  have hheld : lock_held_by_current_thread σ t L = false := by
    simp [lock_held_by_current_thread, hnt]
  have htr := trickle_self_loop W L ((σ.threads t).priority) fuel σ hold hw
  rcases h : trickle_priority_donation σ (some L) ((σ.threads t).priority) fuel
    with ⟨st, σ'⟩
  rw [h] at htr
  simp only at htr
  subst htr
  simp only [lock_acquire, hheld, Bool.false_eq_true, if_false, hold, hfind,
    hw, h]

/-! ### The claims -/

/-- C1: the claimed invariant — after any lock_acquire or lock_release
completes, every thread's effective priority equals max(base priority,
max donated priority over the ledger) — fails on the code.  In the
trace, H (base 50) holds L; A (priority 10) blocks on L, and lock.c
line 137 overwrites H's priority with 10 unconditionally; after H then
completes an ordinary lock_acquire of the free lock M, H's effective
priority is 10 while the claimed formula gives max(50, 10) = 50. -/
theorem claim_C1_effective_invariant :
    c1_r1.1 = AcquireStatus.ok ∧ c1_r2.1 = AcquireStatus.blocked ∧
    c1_r3.1 = AcquireStatus.ok ∧
    (c1_r3.2.threads 0).priority = 10 ∧ spec_effective c1_r3.2 0 = 50 := by
  decide

/-- C2: transitive donation holds on the code for the claimed scenario.
A (priority 10) blocks on L1 held by B (priority 1), while B is blocked
on L2 held by C (priority 1); after A blocks, trickle_priority_donation
has walked the chain and C's effective priority is 10, as is B's. -/
theorem claim_C2_transitive_donation :
    c2_r1.1 = AcquireStatus.ok ∧ c2_r2.1 = AcquireStatus.ok ∧
    c2_r3.1 = AcquireStatus.blocked ∧ c2_r4.1 = AcquireStatus.blocked ∧
    (c2_r4.2.threads 2).priority = 10 ∧
    (c2_r4.2.threads 1).priority = 10 := by
  decide

/-- C3: the claimed post-release formula — effective priority =
max(base, max donated over the remaining ledger) — fails on the code.
H (base 50) holds L (donor priority 5) and K (donor priority 6); after
H releases L, lock.c revokes to base and then overwrites with the front
ledger entry's priority without taking the max with base, leaving H at
6 while the claimed formula gives max(50, 6) = 50. -/
theorem claim_C3_release_revoke :
    c3_r1.1 = AcquireStatus.ok ∧ c3_r2.1 = AcquireStatus.ok ∧
    c3_r3.1 = AcquireStatus.blocked ∧ c3_r4.1 = AcquireStatus.blocked ∧
    c3_r5.1 = ReleaseStatus.ok ∧
    (c3_r5.2.threads 0).priority = 6 ∧ spec_effective c3_r5.2 0 = 50 := by
  decide

/-- C4: the claim that a contended acquire sets the lock's donated
priority to max(previous value, caller's effective priority), and that
it never decreases while the lock stays contended, fails on the code.
After A (10) blocks on L the donated priority is 10; when D (priority
2) blocks, the find_lock branch assigns L's priority from the holder's
current (clobbered) priority 3, so it drops from 10 to 3 even though
max(10, 2) = 10. -/
theorem claim_C4_donated_priority_drop :
    c4_r1.1 = AcquireStatus.ok ∧ c4_r2.1 = AcquireStatus.blocked ∧
    c4_r3.1 = AcquireStatus.blocked ∧ c4_r4.1 = AcquireStatus.blocked ∧
    (c4_r2.2.locks 0).priority = 10 ∧
    (c4_r3.2.locks 0).priority = 10 ∧
    (c4_r3.2.threads 3).priority = 2 ∧
    max ((c4_r3.2.locks 0).priority) ((c4_r3.2.threads 3).priority) = 10 ∧
    (c4_r4.2.locks 0).priority = 3 := by
  decide

/-- C5: the claim that a thread resuming from a contended lock_acquire
gets the lock's holder set to itself and its blocking_lock reset to
None fails on the code: lock.c sets the holder (line 141) but never
clears lock_waiting_on, so after W resumes, W still records L as the
lock it is blocked on while simultaneously holding L. -/
theorem claim_C5_resume_keeps_blocking_lock :
    c5_r1.1 = AcquireStatus.ok ∧ c5_r2.1 = AcquireStatus.blocked ∧
    c5_r3.1 = ReleaseStatus.ok ∧
    (c5_s4.locks 0).holder = some 1 ∧
    (c5_s4.threads 1).lock_waiting_on = some 0 := by
  decide

/-- C6: the claim that the donation walk terminates on every chain via
a depth bound, reporting a cycle as a fatal violation, fails on the
code: trickle_priority_donation's while loop has no bound, and on the
reachable state c5_s4 (W holds L while W.lock_waiting_on still points
at L, the C5 bug) the walk never exits for any iteration budget, and a
contended lock_acquire of L by X never returns. -/
theorem claim_C6_trickle_no_bound :
    (∀ fuel, (trickle_priority_donation c5_s4 (some 0) 7 fuel).1 =
      TrickleStatus.outOfFuel) ∧
    (∀ fuel, lock_acquire fuel c5_s4 2 0 = (AcquireStatus.diverge, c5_s4)) :=
  ⟨fun fuel => trickle_self_loop 1 0 7 fuel c5_s4 (by decide) (by decide),
   fun fuel => lock_acquire_cycle_diverges fuel c5_s4 2 1 0 (by decide)
     (by decide) (by decide) (by decide)⟩

/-- C7: the claim that every donation ledger is always sorted in
descending donated priority, with in-place updates repositioned, fails
on the code: after B's insert H's ledger is [6, 5] (sorted), but the
find_lock branch then updates stored priorities in place without
repositioning, leaving H's ledger priorities [2, 6] — not descending,
so the ledger front is no longer the maximum donor. -/
theorem claim_C7_ledger_order_broken :
    c7_r1.1 = AcquireStatus.ok ∧ c7_r2.1 = AcquireStatus.ok ∧
    c7_r3.1 = AcquireStatus.blocked ∧ c7_r4.1 = AcquireStatus.blocked ∧
    c7_r5.1 = AcquireStatus.blocked ∧ c7_r6.1 = AcquireStatus.blocked ∧
    ledger_priorities c7_r4.2 0 = [6, 5] ∧
    sorted_desc (ledger_priorities c7_r4.2 0) = true ∧
    ledger_priorities c7_r6.2 0 = [2, 6] ∧
    sorted_desc (ledger_priorities c7_r6.2 0) = false := by
  decide

/-- C8: acquiring a free lock (holder None, semaphore available as a
binary semaphore of a free lock always is) changes no thread's base or
effective priority, makes the caller the holder, and completes without
suspension. -/
theorem claim_C8_free_acquire_no_change (fuel : Nat) (σ : State)
    (t : ThreadId) (l : LockId)
    (hfree : (σ.locks l).holder = none) (hsem : 0 < (σ.locks l).sem) :
    (lock_acquire fuel σ t l).1 = AcquireStatus.ok ∧
    (∀ u, ((lock_acquire fuel σ t l).2.threads u).base_priority =
      (σ.threads u).base_priority) ∧
    (∀ u, ((lock_acquire fuel σ t l).2.threads u).priority =
      (σ.threads u).priority) ∧
    ((lock_acquire fuel σ t l).2.locks l).holder = some t := by
  have hheld : lock_held_by_current_thread σ t l = false := by
    simp [lock_held_by_current_thread, hfree]
  simp only [lock_acquire, hheld, Bool.false_eq_true, if_false, hfree]
  refine ⟨?_, ?_, ?_, ?_⟩ <;>
    simp [hsem, State.setLock]

/-- Witness for C8 at a concrete input: every thread has priority 4,
lock 0 is freshly initialized and free. -/
def c8_w : State :=
  { threads := fun _ => mkThread 4, locks := fun _ => lock_init }

/-- C8 witness: instantiates claim_C8_free_acquire_no_change on the
concrete free lock 0 and thread 0, observing thread 1's priority. -/
theorem claim_C8_witness :
    (c8_w.locks 0).holder = none ∧ 0 < (c8_w.locks 0).sem ∧
    (lock_acquire 3 c8_w 0 0).1 = AcquireStatus.ok ∧
    ((lock_acquire 3 c8_w 0 0).2.threads 1).priority =
      (c8_w.threads 1).priority ∧
    ((lock_acquire 3 c8_w 0 0).2.locks 0).holder = some 0 :=
  ⟨rfl, by decide,
    (claim_C8_free_acquire_no_change 3 c8_w 0 0 rfl (by decide)).1,
    (claim_C8_free_acquire_no_change 3 c8_w 0 0 rfl (by decide)).2.2.1 1,
    (claim_C8_free_acquire_no_change 3 c8_w 0 0 rfl (by decide)).2.2.2⟩

/-- C9: usage errors are fatal, immediate assertion failures, never
no-ops: lock_acquire by a thread that already holds the lock halts at
lock.c line 112's ASSERT before touching any state, and lock_release by
a thread that is not the holder halts at line 198's ASSERT before
touching any state. -/
theorem claim_C9_usage_asserts (fuel : Nat) (σ : State) (t : ThreadId)
    (l : LockId) :
    ((σ.locks l).holder = some t →
      lock_acquire fuel σ t l = (AcquireStatus.assertFail, σ)) ∧
    ((σ.locks l).holder ≠ some t →
      lock_release σ t l = (ReleaseStatus.assertFail, σ)) := by
  constructor
  · intro h
    simp [lock_acquire, lock_held_by_current_thread, h]
  · intro h
    simp [lock_release, lock_held_by_current_thread, h]

/-- Witness for C9: lock 0 is held by thread 0 in this state. -/
def c9_w : State :=
  { threads := fun _ => mkThread 4,
    locks := fun _ => { lock_init with holder := some 0, sem := 0 } }

/-- C9 witness: thread 0 re-acquiring its own lock 0 and thread 1
releasing lock 0 (held by thread 0) both halt with assertion
failures. -/
theorem claim_C9_witness :
    lock_acquire 3 c9_w 0 0 = (AcquireStatus.assertFail, c9_w) ∧
    lock_release c9_w 1 0 = (ReleaseStatus.assertFail, c9_w) :=
  ⟨(claim_C9_usage_asserts 3 c9_w 0 0).1 rfl,
   (claim_C9_usage_asserts 3 c9_w 1 0).2 (by decide)⟩

/-- C10: when the releasing thread's donation ledger is empty,
lock_release changes only the released lock's holder (to None) and its
semaphore count (incremented): every thread record is untouched, every
other lock is untouched, and the released lock's donated priority is
preserved. -/
theorem claim_C10_release_empty_ledger (σ : State) (t : ThreadId)
    (l : LockId) (hold : (σ.locks l).holder = some t)
    (hled : (σ.threads t).priority_donor_locks = []) :
    (lock_release σ t l).1 = ReleaseStatus.ok ∧
    (∀ u, (lock_release σ t l).2.threads u = σ.threads u) ∧
    (∀ k, k ≠ l → (lock_release σ t l).2.locks k = σ.locks k) ∧
    ((lock_release σ t l).2.locks l).holder = none ∧
    ((lock_release σ t l).2.locks l).priority = (σ.locks l).priority ∧
    ((lock_release σ t l).2.locks l).sem = (σ.locks l).sem + 1 := by
  have hheld : lock_held_by_current_thread σ t l = true := by
    simp [lock_held_by_current_thread, hold]
  simp only [lock_release, hheld, if_true, setLock_threads, hled, if_pos]
  refine ⟨trivial, fun u => trivial, fun k hk => ?_, ?_, ?_, ?_⟩
  · rw [setLock_other _ _ _ _ hk, setLock_other _ _ _ _ hk]
  · rw [setLock_self, setLock_self]
  · rw [setLock_self, setLock_self]
  · rw [setLock_self, setLock_self]

/-- Witness for C10: lock 0 held by thread 0, whose ledger is empty. -/
def c10_w : State :=
  { threads := fun _ => mkThread 9,
    locks := fun _ => { lock_init with holder := some 0, sem := 0 } }

/-- C10 witness: instantiates claim_C10_release_empty_ledger at
thread 0 releasing lock 0, observing thread 2 and lock 1. -/
theorem claim_C10_witness :
    (lock_release c10_w 0 0).1 = ReleaseStatus.ok ∧
    (lock_release c10_w 0 0).2.threads 2 = c10_w.threads 2 ∧
    (lock_release c10_w 0 0).2.locks 1 = c10_w.locks 1 ∧
    ((lock_release c10_w 0 0).2.locks 0).holder = none ∧
    ((lock_release c10_w 0 0).2.locks 0).priority =
      (c10_w.locks 0).priority ∧
    ((lock_release c10_w 0 0).2.locks 0).sem = (c10_w.locks 0).sem + 1 :=
  ⟨(claim_C10_release_empty_ledger c10_w 0 0 rfl rfl).1,
   (claim_C10_release_empty_ledger c10_w 0 0 rfl rfl).2.1 2,
   (claim_C10_release_empty_ledger c10_w 0 0 rfl rfl).2.2.1 1 (by decide),
   (claim_C10_release_empty_ledger c10_w 0 0 rfl rfl).2.2.2.1,
   (claim_C10_release_empty_ledger c10_w 0 0 rfl rfl).2.2.2.2.1,
   (claim_C10_release_empty_ledger c10_w 0 0 rfl rfl).2.2.2.2.2⟩

end Pintos
